import Mathlib

/-!
Verification of the visibility / draw-list generation core of
`src/renderer/render_scene.cpp` (class `RenderSceneImpl`).

The C++ state is shallowly embedded: the dense `m_model_instances` array,
the point-light array with its component-id map, the per-light influence
lists (`m_light_influenced_geometry`), the broad-phase culling entries and
the LOD draw-record pipeline are translated into pure Lean functions over
an explicit `Scene` record.  Float scalars are modelled by exact integer
arithmetic (`ℤ`): every float operation the translated code performs maps
to the corresponding exact operation, and no claim here concerns rounding
behaviour, so the integer-valued instances are enough to settle each one
while keeping every definition kernel-evaluable on closed inputs; engine
facilities that live outside `src/` (the `CullingSystem`, `Frustum` math,
the resource manager) are modelled from the spec where noted.  Operations
whose C++ counterpart can hit undefined behaviour (a `HashMap` lookup of a
missing key) return `Option`.
-/

namespace RenderScene

/-- 3-component vector over ℤ (engine `Vec3`; only the operations the
culling/LOD code uses are needed). -/
structure Vec3 where
  x : ℤ
  y : ℤ
  z : ℤ
deriving DecidableEq, Repr

/-- Componentwise difference, `Vec3::operator-`. -/
def vsub (a b : Vec3) : Vec3 := ⟨a.x - b.x, a.y - b.y, a.z - b.z⟩

/-- `Vec3::squaredLength`. -/
def squaredLength (v : Vec3) : ℤ := v.x * v.x + v.y * v.y + v.z * v.z

/-- Engine `Sphere`: centre and radius. -/
structure Sphere where
  position : Vec3
  radius : ℤ
deriving DecidableEq, Repr

/-- Strict sphere-sphere overlap test, exactly the in-source test of
`modelLoaded` (render_scene.cpp:4348):
`(t - light_pos).squaredLength() < (radius + range)^2`. -/
def sphereIntersectB (p : Vec3) (bigR : ℤ) (c : Vec3) (r : ℤ) : Bool :=
  decide (squaredLength (vsub c p) < (bigR + r) * (bigR + r))

/-- One mesh descriptor of a model instance.  `material` is the material
resource (none = null pointer, as in freshly padded custom meshes);
`geometry` abstracts the quadruple
(attribute_array_offset, attribute_array_size, indices_offset, indices_count)
set by `Mesh::set`. -/
structure Mesh where
  material : Option ℕ
  geometry : ℕ
deriving DecidableEq, Repr

def defaultMesh : Mesh := ⟨none, 0⟩

/-- Loaded model asset as read by the core (spec §6: `Model`).  `layer_mask`
abstracts the OR of the meshes' material render-layer masks (material data
is outside `src/`); `lod_from`/`lod_to` are `getLODMeshIndices`. -/
structure Model where
  is_ready : Bool
  bounding_radius : ℤ
  meshes : List Mesh
  bone_count : ℕ
  layer_mask : ℕ
  lod_from : ℤ → ℕ
  lod_to : ℤ → ℕ

/-- `ModelInstance` slot of the dense `m_model_instances` array.
`entity = none` models `INVALID_ENTITY`; `model = none` a null model
pointer; `matrix_translation` is the translation part of the cached world
matrix (the only part the culling/LOD code reads); `pose` records whether
a skeleton pose is allocated. -/
structure ModelInstance where
  entity : Option ℕ
  model : Option ℕ
  matrix_translation : Vec3
  meshes : List Mesh
  custom_meshes : Bool
  pose : Bool
deriving DecidableEq, Repr

def sentinelInstance : ModelInstance :=
  { entity := none, model := none, matrix_translation := ⟨0, 0, 0⟩
    meshes := [], custom_meshes := false, pose := false }

/-- `PointLight` fields the culling core reads.  Component ids are `ℤ`
(`m_point_light_last_cmp` starts at `INVALID_COMPONENT = {-1}`). -/
structure PointLight where
  m_entity : ℕ
  m_component : ℤ
  m_range : ℤ
deriving DecidableEq, Repr

/-- One broad-phase entry of the `CullingSystem` (spec §4.2 `BoundingEntry`):
handle, bounding sphere, u64 layer mask. -/
structure CullEntry where
  cmp : ℕ
  sphere : Sphere
  mask : ℕ
deriving DecidableEq, Repr

/-- A frustum as the culling core consumes it: a sphere-inside test plus the
`fov` field read by the LOD job (`fov <= 0` marks ortho frusta). -/
structure Frustum where
  test : Vec3 → ℤ → Bool
  fov : ℤ

/-- The external transform store (`m_universe`): position and scale per
entity.  `getMatrix(e).getTranslation() = getPosition(e)`. -/
structure Universe where
  position : ℕ → Vec3
  scale : ℕ → ℤ

/-- `ModelInstanceMesh`, the per-frame draw record: handle plus the mesh
descriptor the record points at. -/
structure ModelInstanceMesh where
  model_instance : ℕ
  mesh : Mesh
deriving DecidableEq, Repr

/-- The `RenderSceneImpl` state restricted to the visibility/LOD/light
subsystems the claims are about (decals, terrains, cameras, particle
emitters and bone attachments are independent fields and are omitted).
`destroyed_events` logs `m_model_instance_destroyed.invoke`,
`destroyed_components` logs `m_universe.destroyComponent`, and
`assert_failed` records a tripped `ASSERT` (release builds continue). -/
structure Scene where
  model_instances : List ModelInstance
  point_lights : List PointLight
  light_influenced_geometry : List (List ℕ)
  point_lights_map : List (ℤ × ℕ)
  point_light_last_cmp : ℤ
  culling_system : List CullEntry
  temporary_infos : List (List ModelInstanceMesh)
  model_loaded_callbacks : List (ℕ × ℕ)
  refcount : ℕ → ℤ
  models : ℕ → Model
  m_universe : Universe
  lod_multiplier : ℤ
  destroyed_events : List ℕ
  destroyed_components : List (Option ℕ × ℕ)
  assert_failed : Bool

/-! ### List helpers mirroring the engine `Array` operations

The engine containers live outside `src/`; the operations used by the
translated code are the standard ones their call sites rely on:
`eraseFast(i)` copies the last element into slot `i` and pops the back,
`erase(i)` removes slot `i` keeping order, `eraseItemFast(x)` erases the
first occurrence of `x` via `eraseFast`. -/

/-- Index of the first occurrence of `x`, as the linear scans in
`onEntityMoved` / `destroyModelInstance` compute it. -/
def findFirstIdx (x : ℕ) : List ℕ → Option ℕ
  | [] => none
  | y :: t => if y = x then some 0 else (findFirstIdx x t).map (· + 1)

/-- `Array::eraseFast(i)`: overwrite slot `i` with the last element, drop
the last slot. -/
def eraseFastAt (l : List ℕ) (i : ℕ) : List ℕ :=
  (l.set i (l.getLast?.getD 0)).dropLast

/-- Erase the first occurrence of `x` by `eraseFast` (the
`onEntityMoved` removal loop and `Array::eraseItemFast`). -/
def removeFirstSwap (x : ℕ) (l : List ℕ) : List ℕ :=
  match findFirstIdx x l with
  | none => l
  | some j => eraseFastAt l j

/-- Erase the first occurrence of `x` keeping order (the
`destroyModelInstance` removal loop, which uses `Array::erase`). -/
def removeFirstOrdered (x : ℕ) (l : List ℕ) : List ℕ :=
  match findFirstIdx x l with
  | none => l
  | some j => l.eraseIdx j

/-- Association-list lookup for the component-id map
`m_point_lights_map : HashMap<ComponentHandle, int>`. -/
def lookupZ (m : List (ℤ × ℕ)) (k : ℤ) : Option ℕ :=
  match m with
  | [] => none
  | p :: t => if p.1 = k then some p.2 else lookupZ t k

/-- Map an index-aware fallible transform over a list, failing when any
element fails (used for loops whose body can hit undefined behaviour). -/
def optionMapIdx (f : ℕ → List ℕ → Option (List ℕ)) : ℕ → List (List ℕ) → Option (List (List ℕ))
  | _, [] => some []
  | i, a :: t =>
    match f i a with
    | none => none
    | some b => (optionMapIdx f (i + 1) t).map (b :: ·)

/-- Map an index-aware transform over a list (total loops). -/
def mapIdxFrom (f : ℕ → List ℕ → List ℕ) : ℕ → List (List ℕ) → List (List ℕ)
  | _, [] => []
  | i, a :: t => f i a :: mapIdxFrom f (i + 1) t

/-! ### Broad-phase culling index

The `CullingSystem` implementation is outside `src/`; its operations are
modelled from the spec (§4.2): one `{handle, sphere, layer_mask}` entry per
object, `add`/`remove`/`update_sphere`, and a cull query whose buckets
union to exactly the set of entries whose sphere intersects the frustum
and whose mask ANDs non-zero with the query mask. -/

/-- `CullingSystem::addStatic` (spec: asserts if the handle is already
present; call sites either guard with `isAdded` or guarantee absence). -/
def addStatic (entries : List CullEntry) (cmp : ℕ) (sphere : Sphere) (mask : ℕ) : List CullEntry :=
  entries ++ [⟨cmp, sphere, mask⟩]

/-- `CullingSystem::removeStatic`. -/
def removeStatic (entries : List CullEntry) (cmp : ℕ) : List CullEntry :=
  entries.filter (fun en => en.cmp ≠ cmp)

/-- `CullingSystem::updateBoundingSphere`. -/
def updateBoundingSphere (entries : List CullEntry) (sphere : Sphere) (cmp : ℕ) : List CullEntry :=
  entries.map (fun en => if en.cmp = cmp then { en with sphere := sphere } else en)

/-- `CullingSystem::isAdded`. -/
def isAdded (entries : List CullEntry) (cmp : ℕ) : Bool :=
  entries.any (fun en => en.cmp == cmp)

/-- Modelled from the spec: `CullingSystem::cullToFrustum(Async)` +
`getResult` (implementation outside `src/`).  Per §4.2 the matches are the
entries whose bounding sphere intersects the frustum and whose u64 layer
mask bitwise-ANDs non-zero with the query mask, each handle appearing once;
the bucket decomposition is an unspecified implementation choice callers
must not rely on, modelled here as a single bucket. -/
def cullToFrustum (entries : List CullEntry) (frustum : Frustum) (layer_mask : ℕ) : List (List ℕ) :=
  let matching := (entries.filter
    (fun en => frustum.test en.sphere.position en.sphere.radius && decide ((en.mask &&& layer_mask) ≠ 0))).map
    (fun en => en.cmp)
  if matching.isEmpty then [] else [matching]

/-! ### Resource bookkeeping (`m_model_loaded_callbacks`, the resource
manager's reference counts). -/

/-- `getModelLoadedCallback` (creates a zero-count entry if missing) followed
by `++callback.m_ref_count`, as `setModel` uses it. -/
def incCallback (l : List (ℕ × ℕ)) (m : ℕ) : List (ℕ × ℕ) :=
  if l.any (fun p => p.1 == m) then
    l.map (fun p => if p.1 = m then (p.1, p.2 + 1) else p)
  else l ++ [(m, 1)]

/-- `--callback.m_ref_count; if (ref_count == 0) erase` in `setModel`. -/
def decCallback (l : List (ℕ × ℕ)) (m : ℕ) : List (ℕ × ℕ) :=
  l.filterMap (fun p =>
    if p.1 = m then (if p.2 ≤ 1 then none else some (p.1, p.2 - 1)) else some p)

/-- `ResourceManager::load` effect on the model reference count (the
resource system itself is an external collaborator, spec §1). -/
def incRef (f : ℕ → ℤ) (m : ℕ) : ℕ → ℤ :=
  fun x => if x = m then f x + 1 else f x

/-- `ResourceManager::unload` effect on the model reference count. -/
def decRef (f : ℕ → ℤ) (m : ℕ) : ℕ → ℤ :=
  fun x => if x = m then f x - 1 else f x

/-! ### Scene operations translated from render_scene.cpp -/

/-- `getLayerMask` (render_scene.cpp:2576): 1 while the model is not ready,
otherwise the OR of the meshes' material render-layer masks (abstracted as
`Model.layer_mask`). -/
def getLayerMask (s : Scene) (r : ModelInstance) : ℕ :=
  let model := s.models (r.model.getD 0)
  if !model.is_ready then 1 else model.layer_mask

/-- `getPointLightFrustum` (render_scene.cpp:2299).  The light is found via
`m_point_lights_map`; a missing key or bad index is undefined behaviour in
the source (`HashMap::operator[]`), hence `none`.  The frustum itself is
Modelled from the spec: `Frustum::computeOrtho`/`isSphereInside` are
outside `src/`, and the spec (§3, §4.4) describes the light-influence test
as intersection with the sphere `{light_position, light_range}`, the same
strict sphere test `modelLoaded` performs in-source; ortho frusta carry a
non-positive `fov`. -/
def getPointLightFrustum (s : Scene) (cmp : ℤ) : Option Frustum :=
  (lookupZ s.point_lights_map cmp).bind fun idx =>
    (s.point_lights[idx]?).map fun light =>
      { test := fun c r =>
          sphereIntersectB (s.m_universe.position light.m_entity) light.m_range c r
        fov := -1 }

/-- `detectLightInfluencedGeometry` (render_scene.cpp:4522): cull with the
light's frustum and mask `0xffffFFFF`, then replace that light's influence
list wholesale with the flattened buckets.  Out-of-bounds list access is
undefined behaviour, hence `none`. -/
def detectLightInfluencedGeometry (s : Scene) (cmp : ℤ) : Option Scene :=
  (getPointLightFrustum s cmp).bind fun frustum =>
    (lookupZ s.point_lights_map cmp).bind fun idx =>
      if idx < s.light_influenced_geometry.length then
        let results := cullToFrustum s.culling_system frustum 0xffffFFFF
        some { s with light_influenced_geometry :=
                 s.light_influenced_geometry.set idx results.flatten }
      else none

/-- `modelLoaded(Model*, ComponentHandle)` (render_scene.cpp:4294): insert
the culling entry with radius `bounding_radius * scale`, allocate the pose
when the model has bones, refresh the cached matrix, adopt the model's mesh
list (syncing an existing custom override list against the new layout), and
push the handle onto every point light's influence list whose position is
within `(radius + range)` of the instance — with the unscaled model radius.
`ASSERT(!r.pose)` and `ASSERT(!r.meshes || r.custom_meshes)` are recorded in
`assert_failed`. -/
def modelLoaded (s : Scene) (mid : ℕ) (component : ℕ) : Scene :=
  match s.model_instances[component]? with
  | none => s
  | some r =>
    let model := s.models mid
    let af := s.assert_failed || r.pose || (!r.meshes.isEmpty && !r.custom_meshes)
    let bounding_radius := (s.models (r.model.getD 0)).bounding_radius
    let scale := s.m_universe.scale (r.entity.getD 0)
    let sphere : Sphere := ⟨r.matrix_translation, bounding_radius * scale⟩
    let pose := decide (0 < model.bone_count)
    let new_translation := s.m_universe.position (r.entity.getD 0)
    let count := model.meshes.length
    let meshes :=
      if !r.meshes.isEmpty then
        -- allocateCustomMeshes(r, count) copies the existing descriptors and
        -- pads with null-material meshes, then materials are kept where
        -- already overridden and the geometry is synced from the new model
        let padded := r.meshes.take count ++ List.replicate (count - r.meshes.length) defaultMesh
        (List.range count).map (fun i =>
          let old := padded.getD i defaultMesh
          let src := model.meshes.getD i defaultMesh
          Mesh.mk (if old.material.isSome then old.material else src.material) src.geometry)
      else model.meshes
    let custom := if !r.meshes.isEmpty then true else r.custom_meshes
    let r1 := { r with pose := pose, matrix_translation := new_translation
                       meshes := meshes, custom_meshes := custom }
    { s with
      assert_failed := af
      culling_system := addStatic s.culling_system component sphere (getLayerMask s r)
      model_instances := s.model_instances.set component r1
      light_influenced_geometry :=
        mapIdxFrom (fun i li =>
          match s.point_lights[i]? with
          | none => li
          | some light =>
            if sphereIntersectB (s.m_universe.position light.m_entity) light.m_range
                new_translation bounding_radius then
              li ++ [component]
            else li) 0 s.light_influenced_geometry }

/-- `modelUnloaded(Model*, ComponentHandle)` (render_scene.cpp:4260): drop
the borrowed mesh list (a custom override list is kept), free the pose,
erase the handle from every light's influence list (`eraseItemFast`) and
remove the culling entry. -/
def modelUnloadedCmp (s : Scene) (component : ℕ) : Scene :=
  match s.model_instances[component]? with
  | none => s
  | some r =>
    let r1 := if !r.custom_meshes then { r with meshes := [], pose := false } else { r with pose := false }
    { s with
      model_instances := s.model_instances.set component r1
      light_influenced_geometry :=
        mapIdxFrom (fun i li =>
          if i < s.point_lights.length then removeFirstSwap component li else li) 0
          s.light_influenced_geometry
      culling_system := removeStatic s.culling_system component }

/-- `setModel` (render_scene.cpp:4473).  `ASSERT(isValid(entity))` is
recorded in `assert_failed`; the `no_change` branch unloads once (balancing
the caller's `load`) and returns before any other side effect; otherwise the
old model is torn down (custom meshes freed, callback de-registered, culling
entry removed while the old model was ready, resource unloaded), the slot is
reset, and a ready new model runs `modelLoaded` immediately. -/
def setModel (s : Scene) (component : ℕ) (model : Option ℕ) : Scene :=
  match s.model_instances[component]? with
  | none => s
  | some model_instance =>
    let s := if model_instance.entity.isSome then s else { s with assert_failed := true }
    let old_model := model_instance.model
    if model = old_model ∧ old_model.isSome then
      { s with refcount := decRef s.refcount (old_model.getD 0) }
    else
      let s1 :=
        match old_model with
        | none => s
        | some old =>
          let mi1 := if model_instance.custom_meshes then
              { model_instance with meshes := [], custom_meshes := false }
            else model_instance
          { s with
            model_instances := s.model_instances.set component mi1
            model_loaded_callbacks := decCallback s.model_loaded_callbacks old
            culling_system := if (s.models old).is_ready then
                removeStatic s.culling_system component
              else s.culling_system
            refcount := decRef s.refcount old }
      let s2 :=
        match s1.model_instances[component]? with
        | none => s1
        | some mi =>
          { s1 with model_instances :=
              s1.model_instances.set component { mi with model := model, meshes := [], pose := false } }
      match model with
      | none => s2
      | some mid =>
        let s3 := { s2 with model_loaded_callbacks := incCallback s2.model_loaded_callbacks mid }
        if (s3.models mid).is_ready then modelLoaded s3 mid component else s3

/-- `setModelInstancePath` (render_scene.cpp:2618): load the model resource
(reference count +1), hand it to `setModel`, then refresh the cached matrix
from the universe. -/
def setModelInstancePath (s : Scene) (cmp : ℕ) (path : Option ℕ) : Scene :=
  let s1 :=
    match path with
    | some mid => setModel { s with refcount := incRef s.refcount mid } cmp (some mid)
    | none => setModel s cmp none
  match s1.model_instances[cmp]? with
  | none => s1
  | some r =>
    let r1 := { r with matrix_translation := s1.m_universe.position (r.entity.getD 0) }
    { s1 with model_instances := s1.model_instances.set cmp r1 }

/-- `destroyModelInstance` (render_scene.cpp:1598): fire the destroyed
callback, erase the handle from every influence list (ordered `erase`),
release the model via `setModel(cmp, nullptr)`, free the pose, invalidate
the entity and notify the universe. -/
def destroyModelInstance (s : Scene) (component : ℕ) : Scene :=
  let s1 := { s with
    destroyed_events := s.destroyed_events ++ [component]
    light_influenced_geometry := s.light_influenced_geometry.map (removeFirstOrdered component) }
  let s2 := setModel s1 component none
  match s2.model_instances[component]? with
  | none => s2
  | some mi =>
    let entity := mi.entity
    { s2 with
      model_instances := s2.model_instances.set component { mi with pose := false, entity := none }
      destroyed_components := s2.destroyed_components ++ [(entity, component)] }

/-- One iteration of the per-light loop of `onEntityMoved`
(render_scene.cpp:2346): erase the handle's first occurrence from light
`i`'s influence list (`eraseFast`), then push it back when the sphere
`{posE, bounding_radius}` is inside `getPointLightFrustum({i})`. -/
def movedLightStep (s2 : Scene) (e : ℕ) (posE : Vec3) (bounding_radius : ℤ)
    (i : ℕ) (li : List ℕ) : Option (List ℕ) :=
  if i < s2.point_lights.length then
    let li1 := removeFirstSwap e li
    (getPointLightFrustum s2 (i : ℤ)).map
      (fun f => if f.test posE bounding_radius then li1 ++ [e] else li1)
  else some li

/-- `onEntityMoved` (render_scene.cpp:2328), restricted to the model
instance and light-influence fields (the decal and bone-attachment parts
act only on fields outside this model).  For a live slot with a ready model
it refreshes the cached matrix, updates the culling sphere to
`scale * bounding_radius`, then for every light index removes the handle
from that light's list and re-adds it when the frustum of
`getPointLightFrustum({light_idx})` contains the sphere
`{position(r.entity), unscaled bounding_radius}`; finally a light owned by
the moved entity gets its list recomputed.  A failing map lookup or an
out-of-range list access is undefined behaviour in the source, hence
`none`. -/
def onEntityMoved (s : Scene) (e : ℕ) : Option Scene :=
  let part1 : Option Scene :=
    match s.model_instances[e]? with
    | none => some s
    | some r =>
      if r.entity.isSome && r.model.isSome && (s.models (r.model.getD 0)).is_ready then
        let r1 := { r with matrix_translation := s.m_universe.position e }
        let s1 := { s with model_instances := s.model_instances.set e r1 }
        let radius := s.m_universe.scale e * (s.models (r.model.getD 0)).bounding_radius
        let s2 := { s1 with culling_system :=
            updateBoundingSphere s1.culling_system ⟨s.m_universe.position e, radius⟩ e }
        let bounding_radius := if r.model.isSome then (s.models (r.model.getD 0)).bounding_radius else 1
        let posE := s.m_universe.position (r.entity.getD 0)
        if s2.point_lights.length ≤ s2.light_influenced_geometry.length then
          (optionMapIdx (movedLightStep s2 e posE bounding_radius) 0
              s2.light_influenced_geometry).map
            (fun ls => { s2 with light_influenced_geometry := ls })
        else none
      else some s
  part1.bind (fun s1 =>
    match s1.point_lights.find? (fun light => light.m_entity == e) with
    | some light => detectLightInfluencedGeometry s1 light.m_component
    | none => some s1)

/-- The scene state after the matrix refresh and culling-sphere update of
`onEntityMoved` (render_scene.cpp:2337–2343), before the per-light loop:
cached translation refreshed, culling sphere updated to
`scale(e) * bounding_radius`. -/
def movedMid (s : Scene) (e : ℕ) (r : ModelInstance) : Scene :=
  { s with
    model_instances :=
      s.model_instances.set e ({ r with matrix_translation := s.m_universe.position e })
    culling_system := updateBoundingSphere s.culling_system
      ⟨s.m_universe.position e,
        s.m_universe.scale e * (s.models (r.model.getD 0)).bounding_radius⟩ e }

/-- `createModelInstance` (render_scene.cpp:4799): grow the dense array with
invalid-entity sentinel slots until `entity.index < size`, initialise slot
`entity.index`, and return the handle `{entity.index}`. -/
def createModelInstance (s : Scene) (e : ℕ) : Scene × ℕ :=
  let grown := s.model_instances ++
    List.replicate (e + 1 - s.model_instances.length) sentinelInstance
  let slot : ModelInstance :=
    { entity := some e, model := none, matrix_translation := s.m_universe.position e
      meshes := [], custom_meshes := false, pose := false }
  ({ s with model_instances := grown.set e slot }, e)

/-- `getModelInstanceComponent` (render_scene.cpp:2290): the handle is the
entity index; `none` models `INVALID_COMPONENT`. -/
def getModelInstanceComponent (s : Scene) (e : ℕ) : Option ℕ :=
  match s.model_instances[e]? with
  | none => none
  | some r => if r.entity.isSome then some e else none

/-- `createPointLight` (render_scene.cpp:4716): push a light with default
range 10, assign the next monotone component id, register it in
`m_point_lights_map`, append an empty influence list, then run
`detectLightInfluencedGeometry`. -/
def createPointLight (s : Scene) (e : ℕ) : Option (Scene × ℤ) :=
  let c := s.point_light_last_cmp + 1
  let light : PointLight := ⟨e, c, 10⟩
  let s1 := { s with
    point_lights := s.point_lights ++ [light]
    light_influenced_geometry := s.light_influenced_geometry ++ [[]]
    point_light_last_cmp := c
    point_lights_map := s.point_lights_map ++ [(c, s.point_lights.length)] }
  (detectLightInfluencedGeometry s1 c).map (fun s2 => (s2, c))

/-- `showModelInstance` (render_scene.cpp:2589): re-insert the culling entry
for a ready model, with sphere `{position(entity), bounding_radius}` — the
radius is the model's object-space radius, not multiplied by the entity
scale. -/
def showModelInstance (s : Scene) (cmp : ℕ) : Scene :=
  match s.model_instances[cmp]? with
  | none => s
  | some r =>
    match r.model with
    | none => s
    | some mid =>
      if !(s.models mid).is_ready then s
      else
        let sphere : Sphere := ⟨s.m_universe.position (r.entity.getD 0), (s.models mid).bounding_radius⟩
        if !isAdded s.culling_system cmp then
          { s with culling_system := addStatic s.culling_system cmp sphere (getLayerMask s r) }
        else s

/-- `hideModelInstance` (render_scene.cpp:2600). -/
def hideModelInstance (s : Scene) (cmp : ℕ) : Scene :=
  { s with culling_system := removeStatic s.culling_system cmp }

/-! ### The visibility job pipeline (`cull`, `fillTemporaryInfos`,
`getModelInstanceInfos`).  `refFov` stands for the constant
`Math::degreesToRadians(60.0f)` (π/3; the conversion lives outside
`src/`). -/

/-- The per-bucket LOD multiplier of the temporary-info job
(render_scene.cpp:3019): `m_lod_multiplier`, times `(fov/refFov)²` when
`frustum.fov > 0`. -/
def lodFactor (mul fov refFov : ℤ) : ℤ :=
  if 0 < fov then mul * ((fov / refFov) * (fov / refFov)) else mul

/-- The per-handle body of the temporary-info job (render_scene.cpp:3027):
squared distance from the cached world translation to the reference point,
times the bucket's multiplier; one record per mesh index in the model's
inclusive LOD range, each pointing at the INSTANCE's mesh list.  The source
assumes every visited handle is a valid slot with a ready model (§4.3). -/
def processHandle (s : Scene) (mul : ℤ) (ref : Vec3) (h : ℕ) : List ModelInstanceMesh :=
  let r := s.model_instances.getD h sentinelInstance
  let squared_distance := squaredLength (vsub r.matrix_translation ref) * mul
  let model := s.models (r.model.getD 0)
  let lodFrom := model.lod_from squared_distance
  let lodTo := model.lod_to squared_distance
  (List.range' lodFrom (lodTo + 1 - lodFrom)).map
    (fun j => ⟨h, r.meshes.getD j defaultMesh⟩)

/-- `fillTemporaryInfos` (render_scene.cpp:2993): one parallel job per
non-empty bucket; returns the per-bucket record lists and the number of
jobs scheduled. -/
def fillTemporaryInfos (s : Scene) (results : List (List ℕ)) (frustum : Frustum)
    (lod_ref_point : Vec3) (refFov : ℤ) : List (List ModelInstanceMesh) × ℕ :=
  (results.map (fun b =>
      if b.isEmpty then []
      else b.flatMap (processHandle s (lodFactor s.lod_multiplier frustum.fov refFov) lod_ref_point)),
   (results.filter (fun b => !b.isEmpty)).length)

/-- `cull` (render_scene.cpp:2969): `nullptr` (here `none`) when the model
instance table is empty, else the culling query result. -/
def cull (s : Scene) (frustum : Frustum) (layer_mask : ℕ) : Option (List (List ℕ)) :=
  if s.model_instances.isEmpty then none
  else some (cullToFrustum s.culling_system frustum layer_mask)

/-- `getModelInstanceInfos` (render_scene.cpp:3206): clear the persistent
buffers and return them when `cull` yields `nullptr`, else fill them.  The
second component is the number of parallel jobs scheduled. -/
def getModelInstanceInfos (s : Scene) (frustum : Frustum) (lod_ref_point : Vec3)
    (refFov : ℤ) (layer_mask : ℕ) : List (List ModelInstanceMesh) × ℕ :=
  match cull s frustum layer_mask with
  | none => (s.temporary_infos.map (fun _ => []), 0)
  | some results => fillTemporaryInfos s results frustum lod_ref_point refFov

/-! ### Spec-side definitions (written from the spec text, for refinement
claims). -/

/-- Spec §4.3 step 2, stated as written: the LOD multiplier factor
incorporates the global bias and gains `(fov / reference_fov)²` exactly
when `fov > 0`. -/
def spec_lod_factor (mul fov refFov : ℤ) : ℤ :=
  mul * (if 0 < fov then (fov / refFov) ^ 2 else 1)

/-- Spec §4.3 steps 2–3 for one handle, stated as written: squared distance
`|translation − lod_reference_point|²` times the spec's multiplier factor,
then one record per mesh index in the inclusive `[from, to]` LOD range of
the object's model, drawn from the object's mesh list. -/
def spec_handle_records (s : Scene) (fov refFov : ℤ) (ref : Vec3) (h : ℕ) : List ModelInstanceMesh :=
  let r := s.model_instances.getD h sentinelInstance
  let d := squaredLength (vsub r.matrix_translation ref) * spec_lod_factor s.lod_multiplier fov refFov
  let model := s.models (r.model.getD 0)
  (List.range' (model.lod_from d) (model.lod_to d + 1 - model.lod_from d)).map
    (fun j => ⟨h, r.meshes.getD j defaultMesh⟩)

/-- Spec §4.3, whole-query shape: every handle of every bucket expanded by
`spec_handle_records`. -/
def spec_draw_records (s : Scene) (results : List (List ℕ)) (fov refFov : ℤ)
    (ref : Vec3) : List (List ModelInstanceMesh) :=
  results.map (fun b => b.flatMap (spec_handle_records s fov refFov ref))

/-- The claim-level sphere intersection of spec §4.4 / §8: the object's
bounding sphere (radius scaled by the entity's world scale) against
`{light_position, light_range}`. -/
def spec_influences (s : Scene) (light : PointLight) (e : ℕ) (mid : ℕ) : Bool :=
  sphereIntersectB (s.m_universe.position light.m_entity) light.m_range
    (s.m_universe.position e) (s.m_universe.scale e * (s.models mid).bounding_radius)

/-! ### Concrete scenes used to evaluate the development on closed inputs -/

/-- A not-yet-ready model with no meshes (default asset slot). -/
def defaultModel : Model :=
  { is_ready := false, bounding_radius := 1, meshes := [], bone_count := 0
    layer_mask := 1, lod_from := fun _ => 0, lod_to := fun _ => 0 }

/-- A ready single-LOD model of bounding radius 1. -/
def readyModel : Model := { defaultModel with is_ready := true }

/-- The empty scene: no objects, no lights, everything at origin. -/
def emptyScene : Scene :=
  { model_instances := [], point_lights := [], light_influenced_geometry := []
    point_lights_map := [], point_light_last_cmp := -1, culling_system := []
    temporary_infos := [], model_loaded_callbacks := [], refcount := fun _ => 0
    models := fun _ => defaultModel
    m_universe := { position := fun _ => ⟨0, 0, 0⟩, scale := fun _ => 1 }
    lod_multiplier := 1, destroyed_events := [], destroyed_components := []
    assert_failed := false }

/-- Object 0 (entity 0, scale 2, position (2,0,0), ready model of radius 1)
and a point light of range 1 on entity 1 at the origin: the scaled bounding
sphere (radius 2) intersects the light sphere (4 < 9), the unscaled one
does not (4 < 4 fails). -/
def exC1 : Scene :=
  { emptyScene with
    model_instances := [{ sentinelInstance with
      entity := some 0, model := some 0, matrix_translation := ⟨2, 0, 0⟩ }]
    point_lights := [⟨1, 0, 1⟩]
    point_lights_map := [(0, 0)]
    light_influenced_geometry := [[]]
    models := fun _ => readyModel
    m_universe :=
      { position := fun e => if e = 0 then ⟨2, 0, 0⟩ else ⟨0, 0, 0⟩
        scale := fun e => if e = 0 then 2 else 1 } }

/-- Like `exC1` but with unit scale and the object at distance 1, inside the
light's range. -/
def exC1w : Scene :=
  { exC1 with m_universe :=
    { position := fun e => if e = 0 then ⟨1, 0, 0⟩ else ⟨0, 0, 0⟩
      scale := fun _ => 1 } }

/-- A single live model instance (entity 0) with no model assigned. -/
def exC2 : Scene :=
  { emptyScene with
    model_instances := [{ sentinelInstance with entity := some 0 }] }

/-- Live object 0 with a ready model of radius 3 on an entity of scale 2. -/
def exC6 : Scene :=
  { emptyScene with
    model_instances := [{ sentinelInstance with entity := some 0, model := some 0 }]
    models := fun _ => { readyModel with bounding_radius := 3 }
    m_universe := { position := fun _ => ⟨0, 0, 0⟩, scale := fun _ => 2 } }

/-- Like `exC6` but with the model not yet ready. -/
def exC6w : Scene :=
  { exC6 with models := fun _ => { defaultModel with bounding_radius := 3 } }

/-- The live slot stored in `exC6` (and `exC9`). -/
def rC6 : ModelInstance := { sentinelInstance with entity := some 0, model := some 0 }

/-- The live slot stored in `exC1` / `exC1w`. -/
def rC1 : ModelInstance :=
  { sentinelInstance with entity := some 0, model := some 0, matrix_translation := ⟨2, 0, 0⟩ }

/-- One culling entry whose u64 layer mask only has bit 32 set, inside the
range of the single point light. -/
def exC7 : Scene :=
  { emptyScene with
    model_instances := [{ sentinelInstance with entity := some 5 }]
    point_lights := [⟨1, 0, 10⟩]
    point_lights_map := [(0, 0)]
    light_influenced_geometry := [[]]
    culling_system := [⟨5, ⟨⟨0, 0, 0⟩, 1⟩, 2 ^ 32⟩] }

/-- Live object 0 with ready model 0 already present in the only light's
influence list (the state `detectLightInfluencedGeometry` produces after
light creation); reassigning to ready model 1 runs `modelLoaded` again. -/
def exC9 : Scene :=
  { emptyScene with
    model_instances := [{ sentinelInstance with entity := some 0, model := some 0 }]
    point_lights := [⟨1, 0, 10⟩]
    point_lights_map := [(0, 0)]
    light_influenced_geometry := [[0]]
    culling_system := [⟨0, ⟨⟨0, 0, 0⟩, 1⟩, 1⟩]
    model_loaded_callbacks := [(0, 1)]
    models := fun _ => readyModel }

/-- Instance 0 with a private custom mesh list that differs from the model's
raw mesh list. -/
def exC4w : Scene :=
  { emptyScene with
    model_instances := [{ sentinelInstance with
      entity := some 0, model := some 0
      meshes := [⟨some 7, 50⟩], custom_meshes := true }]
    models := fun _ => { readyModel with meshes := [⟨some 5, 50⟩] } }

/-- Instance 0 with model 3 assigned and loaded (callback registered,
reference held). -/
def exC5w : Scene :=
  { emptyScene with
    model_instances := [{ sentinelInstance with entity := some 0, model := some 3 }]
    model_loaded_callbacks := [(3, 1)]
    refcount := fun _ => 5
    models := fun _ => readyModel }

/-! ### Lemmas about the list helpers -/

theorem findFirstIdx_eq_none {x : ℕ} : ∀ {l : List ℕ}, findFirstIdx x l = none ↔ x ∉ l := by
  intro l
  induction l with
  | nil => simp [findFirstIdx]
  | cons y t ih =>
    by_cases h : y = x
    · subst h
      simp [findFirstIdx]
    · simp only [findFirstIdx, if_neg h, List.mem_cons]
      cases hm : findFirstIdx x t with
      | none =>
        simp only [Option.map_none']
        constructor
        · rintro - (rfl | hmem)
          · exact h rfl
          · exact (ih.mp hm) hmem
        · intro _; trivial
      | some k =>
        simp only [Option.map_some']
        constructor
        · intro hcon; exact absurd hcon (by simp)
        · intro hnot
          have hxt : x ∉ t := fun hmem => hnot (Or.inr hmem)
          rw [ih.mpr hxt] at hm
          exact absurd hm (by simp)

theorem findFirstIdx_some {x : ℕ} : ∀ {l : List ℕ} {j : ℕ},
    findFirstIdx x l = some j → j < l.length ∧ l[j]? = some x := by
  intro l
  induction l with
  | nil => intro j h; simp [findFirstIdx] at h
  | cons y t ih =>
    intro j h
    by_cases hy : y = x
    · subst hy
      simp [findFirstIdx] at h
      subst h
      simp
    · simp only [findFirstIdx, if_neg hy] at h
      cases hj : findFirstIdx x t with
      | none => rw [hj] at h; simp at h
      | some k =>
        rw [hj] at h
        simp only [Option.map_some', Option.some.injEq] at h
        subst h
        obtain ⟨hk1, hk2⟩ := ih hj
        exact ⟨by simpa using Nat.succ_lt_succ hk1, by simpa using hk2⟩

theorem eraseIdx_cons_perm {x : ℕ} : ∀ {l : List ℕ} {j : ℕ},
    l[j]? = some x → List.Perm l (x :: l.eraseIdx j) := by
  intro l
  induction l with
  | nil => intro j h; simp at h
  | cons y t ih =>
    intro j h
    cases j with
    | zero =>
      simp at h
      subst h
      simp [List.eraseIdx]
    | succ k =>
      simp only [List.getElem?_cons_succ] at h
      have h1 := (ih h).cons y
      have h2 : List.Perm (y :: x :: t.eraseIdx k) (x :: y :: t.eraseIdx k) :=
        List.Perm.swap x y _
      have h3 := h1.trans h2
      simpa [List.eraseIdx] using h3

theorem eraseFastAt_perm : ∀ (l : List ℕ) (j : ℕ), j < l.length →
    List.Perm (eraseFastAt l j) (l.eraseIdx j) := by
  intro l
  induction l with
  | nil => intro j h; simp at h
  | cons a t ih =>
    intro j hj
    cases t with
    | nil =>
      have hj0 : j = 0 := by simpa using hj
      subst hj0
      simp [eraseFastAt, List.eraseIdx]
    | cons b t2 =>
      cases j with
      | zero =>
        have hne : (b :: t2) ≠ [] := by simp
        have hlast : (a :: b :: t2).getLast?.getD 0 = (b :: t2).getLast hne := by
          rw [List.getLast?_cons_cons, List.getLast?_eq_getLast _ hne]
          rfl
        simp only [eraseFastAt, List.eraseIdx_cons_zero, hlast, List.set_cons_zero]
        rw [List.dropLast_cons₂]
        have h1 : List.Perm ((b :: t2).getLast hne :: (b :: t2).dropLast)
            ((b :: t2).dropLast ++ [(b :: t2).getLast hne]) :=
          (List.perm_append_singleton _ _).symm
        rwa [List.dropLast_append_getLast hne] at h1
      | succ k =>
        have hk : k < (b :: t2).length := by simpa using Nat.lt_of_succ_lt_succ hj
        have hlast : (a :: b :: t2).getLast?.getD 0 = (b :: t2).getLast?.getD 0 := by
          rw [List.getLast?_cons_cons]
        have hnonnil : (b :: t2).set k ((b :: t2).getLast?.getD 0) ≠ [] := by
          intro hcon
          have := congrArg List.length hcon
          simp at this
        have hmain := ih k hk
        simp only [eraseFastAt] at hmain ⊢
        rw [List.set_cons_succ, hlast, List.dropLast_cons_of_ne_nil hnonnil,
          List.eraseIdx_cons_succ]
        exact hmain.cons a

section RemoveFirst

theorem removeFirstSwap_not_mem {x : ℕ} {l : List ℕ} (h : x ∉ l) :
    removeFirstSwap x l = l := by
  simp [removeFirstSwap, findFirstIdx_eq_none.mpr h]

theorem removeFirstSwap_perm {x : ℕ} {l : List ℕ} (h : x ∈ l) :
    List.Perm l (x :: removeFirstSwap x l) := by
  unfold removeFirstSwap
  match hf : findFirstIdx x l with
  | none => exact absurd (findFirstIdx_eq_none.mp hf) (by simpa using h)
  | some j =>
    obtain ⟨hj, hget⟩ := findFirstIdx_some hf
    exact (eraseIdx_cons_perm hget).trans ((eraseFastAt_perm l j hj).symm.cons x)

theorem removeFirstOrdered_not_mem {x : ℕ} {l : List ℕ} (h : x ∉ l) :
    removeFirstOrdered x l = l := by
  simp [removeFirstOrdered, findFirstIdx_eq_none.mpr h]

theorem removeFirstOrdered_perm {x : ℕ} {l : List ℕ} (h : x ∈ l) :
    List.Perm l (x :: removeFirstOrdered x l) := by
  unfold removeFirstOrdered
  match hf : findFirstIdx x l with
  | none => exact absurd (findFirstIdx_eq_none.mp hf) (by simpa using h)
  | some j =>
    obtain ⟨hj, hget⟩ := findFirstIdx_some hf
    exact eraseIdx_cons_perm hget

variable {x : ℕ} {l res : List ℕ}

theorem removeFirst_self_not_mem
    (hp : x ∈ l → List.Perm l (x :: res)) (hn : x ∉ l → res = l)
    (hcount : List.count x l ≤ 1) : x ∉ res := by
  by_cases hx : x ∈ l
  · have hperm := hp hx
    have := hperm.count_eq x
    simp [List.count_cons_self] at this
    intro hmem
    have h1 : 1 ≤ List.count x res := List.one_le_count_iff.mpr hmem
    omega
  · rw [hn hx]; exact hx

theorem removeFirst_nodup
    (hp : x ∈ l → List.Perm l (x :: res)) (hn : x ∉ l → res = l)
    (hnd : l.Nodup) : res.Nodup := by
  by_cases hx : x ∈ l
  · have := (hp hx).nodup hnd
    exact (List.nodup_cons.mp this).2
  · rw [hn hx]; exact hnd

theorem removeFirst_mem_ne {y : ℕ}
    (hp : x ∈ l → List.Perm l (x :: res)) (hn : x ∉ l → res = l)
    (hne : y ≠ x) : y ∈ res ↔ y ∈ l := by
  by_cases hx : x ∈ l
  · have := (hp hx).mem_iff (a := y)
    simp [hne] at this
    exact this.symm
  · rw [hn hx]

end RemoveFirst

theorem optionMapIdx_length {f : ℕ → List ℕ → Option (List ℕ)} :
    ∀ {l l' : List (List ℕ)} {i : ℕ}, optionMapIdx f i l = some l' → l'.length = l.length := by
  intro l
  induction l with
  | nil => intro l' i h; simp [optionMapIdx] at h; simp [← h]
  | cons a t ih =>
    intro l' i h
    simp only [optionMapIdx] at h
    match hf : f i a with
    | none => rw [hf] at h; simp at h
    | some b =>
      rw [hf] at h
      match ht : optionMapIdx f (i + 1) t with
      | none => rw [ht] at h; simp at h
      | some t' =>
        rw [ht] at h
        simp at h
        subst h
        simp [ih ht]

theorem optionMapIdx_get? {f : ℕ → List ℕ → Option (List ℕ)} :
    ∀ {l l' : List (List ℕ)} {i j : ℕ} {a : List ℕ},
      optionMapIdx f i l = some l' → l[j]? = some a →
      ∃ b, f (i + j) a = some b ∧ l'[j]? = some b := by
  intro l
  induction l with
  | nil => intro l' i j a _ hget; simp at hget
  | cons c t ih =>
    intro l' i j a h hget
    simp only [optionMapIdx] at h
    match hf : f i c with
    | none => rw [hf] at h; simp at h
    | some b =>
      rw [hf] at h
      match ht : optionMapIdx f (i + 1) t with
      | none => rw [ht] at h; simp at h
      | some t' =>
        rw [ht] at h
        simp at h
        subst h
        cases j with
        | zero =>
          simp only [List.getElem?_cons_zero, Option.some.injEq] at hget
          subst hget
          exact ⟨b, by simpa using hf, by simp⟩
        | succ k =>
          simp only [List.getElem?_cons_succ] at hget
          obtain ⟨b', hb1, hb2⟩ := ih ht hget
          refine ⟨b', ?_, by simpa using hb2⟩
          have : i + 1 + k = i + (k + 1) := by omega
          rwa [this] at hb1

theorem mapIdxFrom_get? {f : ℕ → List ℕ → List ℕ} :
    ∀ {l : List (List ℕ)} {i j : ℕ},
      (mapIdxFrom f i l)[j]? = l[j]?.map (f (i + j)) := by
  intro l
  induction l with
  | nil => intro i j; simp [mapIdxFrom]
  | cons a t ih =>
    intro i j
    cases j with
    | zero => simp [mapIdxFrom]
    | succ k =>
      simp only [mapIdxFrom, List.getElem?_cons_succ, ih]
      have : i + 1 + k = i + (k + 1) := by omega
      rw [this]

theorem mapIdxFrom_length {f : ℕ → List ℕ → List ℕ} :
    ∀ {l : List (List ℕ)} {i : ℕ}, (mapIdxFrom f i l).length = l.length := by
  intro l
  induction l with
  | nil => intro i; simp [mapIdxFrom]
  | cons a t ih => intro i; simp [mapIdxFrom, ih]

/-! ### Small facts about the pipeline and bookkeeping definitions -/

theorem lodFactor_eq_spec (mul fov refFov : ℤ) :
    lodFactor mul fov refFov = spec_lod_factor mul fov refFov := by
  unfold lodFactor spec_lod_factor
  split
  · ring
  · rw [mul_one]

theorem processHandle_eq_spec (s : Scene) (fov refFov : ℤ) (ref : Vec3) (h : ℕ) :
    processHandle s (lodFactor s.lod_multiplier fov refFov) ref h =
      spec_handle_records s fov refFov ref h := by
  unfold processHandle spec_handle_records
  rw [lodFactor_eq_spec]

theorem decRef_incRef (f : ℕ → ℤ) (m : ℕ) : decRef (incRef f m) m = f := by
  funext x
  unfold decRef incRef
  by_cases h : x = m <;> simp [h]

theorem flatten_map_nil (l : List (List ModelInstanceMesh)) :
    (l.map (fun _ => ([] : List ModelInstanceMesh))).flatten = [] := by
  induction l with
  | nil => simp
  | cons a t ih => simp [ih]

theorem optionMapIdx_isSome {f : ℕ → List ℕ → Option (List ℕ)} :
    ∀ {l : List (List ℕ)} {i : ℕ},
      (∀ j a, l[j]? = some a → (f (i + j) a).isSome) → (optionMapIdx f i l).isSome := by
  intro l
  induction l with
  | nil => intro i _; simp [optionMapIdx]
  | cons a t ih =>
    intro i h
    have h0 : (f i a).isSome := by simpa using h 0 a (by simp)
    obtain ⟨b, hb⟩ := Option.isSome_iff_exists.mp h0
    have ht : (optionMapIdx f (i + 1) t).isSome := by
      apply ih
      intro j c hc
      have := h (j + 1) c (by simpa using hc)
      have harith : i + (j + 1) = i + 1 + j := by omega
      rwa [harith] at this
    obtain ⟨t', ht'⟩ := Option.isSome_iff_exists.mp ht
    simp only [optionMapIdx]
    rw [hb, ht']
    simp

/-- `setModel(cmp, nullptr)` never touches the light influence lists. -/
theorem setModel_none_lists (s : Scene) (cmp : ℕ) :
    (setModel s cmp none).light_influenced_geometry = s.light_influenced_geometry := by
  unfold setModel
  cases hr : s.model_instances[cmp]? with
  | none => rfl
  | some r =>
    by_cases he : r.entity.isSome
    all_goals cases hm : r.model
    all_goals by_cases hcm : r.custom_meshes
    all_goals simp [hr, he, hm, hcm]
    all_goals split
    all_goals rfl

/-- `destroyModelInstance` maps the ordered first-occurrence erase over
every influence list and changes them in no other way. -/
theorem destroy_lists (s : Scene) (cmp : ℕ) :
    (destroyModelInstance s cmp).light_influenced_geometry =
      s.light_influenced_geometry.map (removeFirstOrdered cmp) := by
  unfold destroyModelInstance
  cases hsm : (setModel
      ({ s with destroyed_events := s.destroyed_events ++ [cmp],
                light_influenced_geometry :=
                  s.light_influenced_geometry.map (removeFirstOrdered cmp) })
      cmp none).model_instances[cmp]? with
  | none =>
    simp only [hsm]
    rw [setModel_none_lists]
  | some mi =>
    simp only [hsm]
    rw [setModel_none_lists]

/-- The flattened result of a culling query has no duplicate handles as
long as the index itself has none (spec §4.2: every handle appears at most
once across buckets). -/
theorem cullToFrustum_flatten_nodup (entries : List CullEntry) (f : Frustum) (mask : ℕ)
    (h : (entries.map (fun en => en.cmp)).Nodup) :
    (cullToFrustum entries f mask).flatten.Nodup := by
  unfold cullToFrustum
  dsimp only
  split
  · exact List.nodup_nil
  · have hsub := List.Sublist.map (fun en => en.cmp)
      (List.filter_sublist (l := entries)
        (p := fun en => f.test en.sphere.position en.sphere.radius &&
          decide ((en.mask &&& mask) ≠ 0)))
    have hnd := List.Nodup.sublist hsub h
    simpa [List.flatten] using hnd

/-- Running `onEntityMoved` on a live slot with a ready model succeeds and
produces exactly: refreshed cached matrix, culling sphere updated to
`scale * bounding_radius`, and the per-light loop's lists — provided the
component map sends every light index to itself (true while no light has
been destroyed), the list array is long enough, and no light sits on the
moved entity (so the final recompute branch is skipped). -/
theorem onEntityMoved_run (s : Scene) (e : ℕ) (r : ModelInstance)
    (hr : s.model_instances[e]? = some r)
    (hent : r.entity.isSome = true)
    (hmodel : r.model.isSome = true)
    (hready : (s.models (r.model.getD 0)).is_ready = true)
    (hlen : s.point_lights.length ≤ s.light_influenced_geometry.length)
    (hmap : ∀ i, i < s.point_lights.length → lookupZ s.point_lights_map (i : ℤ) = some i)
    (hnolight : ∀ light ∈ s.point_lights, light.m_entity ≠ e) :
    ∃ ls, optionMapIdx
        (movedLightStep (movedMid s e r) e (s.m_universe.position (r.entity.getD 0))
          (s.models (r.model.getD 0)).bounding_radius) 0 s.light_influenced_geometry = some ls ∧
      onEntityMoved s e =
        some { movedMid s e r with light_influenced_geometry := ls } := by
  have hsome : (optionMapIdx
      (movedLightStep (movedMid s e r) e (s.m_universe.position (r.entity.getD 0))
        (s.models (r.model.getD 0)).bounding_radius) 0 s.light_influenced_geometry).isSome := by
    apply optionMapIdx_isSome
    intro j a _
    simp only [Nat.zero_add]
    unfold movedLightStep
    by_cases hjl : j < (movedMid s e r).point_lights.length
    · rw [if_pos hjl]
      have hjs : j < s.point_lights.length := hjl
      have hlook : lookupZ (movedMid s e r).point_lights_map ((j : ℕ) : ℤ) = some j :=
        hmap j hjs
      have hlight : (movedMid s e r).point_lights[j]? =
          some (s.point_lights.get ⟨j, hjs⟩) := by
        have h1 : s.point_lights[j]? = some (s.point_lights.get ⟨j, hjs⟩) := by
          rw [List.getElem?_eq_getElem hjs]
          simp [List.get_eq_getElem]
        exact h1
      unfold getPointLightFrustum
      rw [hlook]
      simp [hlight]
    · rw [if_neg hjl]
      simp
  obtain ⟨ls, hls⟩ := Option.isSome_iff_exists.mp hsome
  refine ⟨ls, hls, ?_⟩
  have hg : (r.entity.isSome && r.model.isSome &&
      (s.models (r.model.getD 0)).is_ready) = true := by
    rw [hent, hmodel, hready]
    rfl
  unfold onEntityMoved
  rw [hr]
  dsimp only
  rw [if_pos hg, if_pos hmodel, if_pos hlen]
  have hfind : List.find? (fun light => light.m_entity == e) s.point_lights = none := by
    rw [List.find?_eq_none]
    intro light hlight
    simpa using hnolight light hlight
  have hstep : ((optionMapIdx
      (movedLightStep (movedMid s e r) e (s.m_universe.position (r.entity.getD 0))
        (s.models (r.model.getD 0)).bounding_radius) 0 s.light_influenced_geometry).map
      (fun ls => { movedMid s e r with light_influenced_geometry := ls })).bind
      (fun s1 =>
        match s1.point_lights.find? (fun light => light.m_entity == e) with
        | some light => detectLightInfluencedGeometry s1 light.m_component
        | none => some s1) =
      some { movedMid s e r with light_influenced_geometry := ls } := by
    rw [hls]
    simp only [Option.map_some']
    simp only [Option.bind]
    have hplights : (movedMid s e r).point_lights = s.point_lights := rfl
    rw [hplights, hfind]
  exact hstep

/-- `updateBoundingSphere` does not change the handles of the index. -/
theorem updateBoundingSphere_cmps (entries : List CullEntry) (sph : Sphere) (c : ℕ) :
    (updateBoundingSphere entries sph c).map (fun en => en.cmp) =
      entries.map (fun en => en.cmp) := by
  unfold updateBoundingSphere
  rw [List.map_map]
  apply List.map_congr_left
  intro en _
  by_cases h : en.cmp = c <;> simp [h]

/-- One `onEntityMoved` per-light step keeps a duplicate-free list
duplicate-free: the first occurrence is erased before the handle is pushed
back at most once. -/
theorem nodup_step_result {s2 : Scene} {e : ℕ} {posE : Vec3} {br : ℤ} {i : ℕ}
    {li b : List ℕ} (hstep : movedLightStep s2 e posE br i li = some b)
    (hnd : li.Nodup) : b.Nodup := by
  unfold movedLightStep at hstep
  split at hstep
  · cases hf : getPointLightFrustum s2 (i : ℤ) with
    | none => rw [hf] at hstep; exact absurd hstep (by simp)
    | some f =>
      rw [hf] at hstep
      simp only [Option.map_some', Option.some.injEq] at hstep
      have hrfs : (removeFirstSwap e li).Nodup :=
        removeFirst_nodup (fun hx => removeFirstSwap_perm hx)
          (fun hx => removeFirstSwap_not_mem hx) hnd
      have hne : e ∉ removeFirstSwap e li :=
        removeFirst_self_not_mem (fun hx => removeFirstSwap_perm hx)
          (fun hx => removeFirstSwap_not_mem hx)
          (List.nodup_iff_count_le_one.mp hnd e)
      subst hstep
      split
      · simp [List.nodup_append, hrfs, hne]
      · exact hrfs
  · have hb : li = b := by simpa using hstep
    exact hb ▸ hnd

/-- `detectLightInfluencedGeometry` keeps every influence list
duplicate-free when the culling index has no duplicate handles. -/
theorem detect_preserves_nodup (sm s' : Scene) (c : ℤ)
    (hdet : detectLightInfluencedGeometry sm c = some s')
    (hnds : ∀ li ∈ sm.light_influenced_geometry, li.Nodup)
    (hculls : (sm.culling_system.map (fun en => en.cmp)).Nodup) :
    ∀ li ∈ s'.light_influenced_geometry, li.Nodup := by
  unfold detectLightInfluencedGeometry at hdet
  cases hf : getPointLightFrustum sm c with
  | none => rw [hf] at hdet; exact absurd hdet (by simp)
  | some f =>
    rw [hf] at hdet
    cases hl : lookupZ sm.point_lights_map c with
    | none => rw [hl] at hdet; exact absurd hdet (by simp)
    | some idx =>
      rw [hl] at hdet
      simp only [Option.some_bind] at hdet
      split at hdet
      · have hx := Option.some_inj.mp hdet
        intro li hli
        rw [← hx] at hli
        rcases List.mem_or_eq_of_mem_set hli with hmem | heq
        · exact hnds li hmem
        · exact heq ▸ cullToFrustum_flatten_nodup sm.culling_system f 0xffffFFFF hculls
      · exact absurd hdet (by simp)

/-! ### Claim theorems -/

/-- Claim C3 (confirmed): in the draw-record pipeline, every handle of every
culled bucket gets its LOD selection distance computed as
`|translation − lod_reference_point|²` times a factor that is the global LOD
multiplier, further multiplied by `(fov / reference_fov)²` exactly when the
query frustum's fov is positive — the pipeline output coincides with the
spec-side formula `spec_draw_records` for all inputs. -/
theorem C3_lod_distance_formula (s : Scene) (results : List (List ℕ)) (frustum : Frustum)
    (ref : Vec3) (refFov : ℤ) :
    (fillTemporaryInfos s results frustum ref refFov).1 =
      spec_draw_records s results frustum.fov refFov ref := by
  unfold fillTemporaryInfos spec_draw_records
  dsimp only
  apply List.map_congr_left
  intro b _
  by_cases hbe : b.isEmpty
  · have hb : b = [] := List.isEmpty_iff.mp hbe
    subst hb
    simp
  · rw [if_neg hbe]
    have hfun : processHandle s (lodFactor s.lod_multiplier frustum.fov refFov) ref =
        spec_handle_records s frustum.fov refFov ref :=
      funext (processHandle_eq_spec s frustum.fov refFov ref)
    rw [hfun]

/-- Claim C4 (confirmed): for a visible handle with a valid slot and model,
`processHandle` appends exactly one `DrawRecord` per mesh index `j` in the
inclusive LOD range `[from, to]` returned by the object's model for the
computed squared distance, and each record's mesh is `r.meshes[j]` — the
object's current mesh list (the private overridden copy when
`custom_meshes`), not the model's raw mesh list. -/
theorem C4_one_record_per_lod_mesh (s : Scene) (mul : ℤ) (ref : Vec3) (h : ℕ)
    (r : ModelInstance) (mid : ℕ)
    (hr : s.model_instances[h]? = some r) (hm : r.model = some mid) :
    processHandle s mul ref h =
      (List.range'
        ((s.models mid).lod_from (squaredLength (vsub r.matrix_translation ref) * mul))
        ((s.models mid).lod_to (squaredLength (vsub r.matrix_translation ref) * mul) + 1 -
          (s.models mid).lod_from (squaredLength (vsub r.matrix_translation ref) * mul))).map
        (fun j => ⟨h, r.meshes.getD j defaultMesh⟩) ∧
    (processHandle s mul ref h).length =
      (s.models mid).lod_to (squaredLength (vsub r.matrix_translation ref) * mul) + 1 -
        (s.models mid).lod_from (squaredLength (vsub r.matrix_translation ref) * mul) := by
  have hget : s.model_instances.getD h sentinelInstance = r := by
    rw [List.getD_eq_getElem?_getD, hr]
    rfl
  have hmain : processHandle s mul ref h =
      (List.range'
        ((s.models mid).lod_from (squaredLength (vsub r.matrix_translation ref) * mul))
        ((s.models mid).lod_to (squaredLength (vsub r.matrix_translation ref) * mul) + 1 -
          (s.models mid).lod_from (squaredLength (vsub r.matrix_translation ref) * mul))).map
        (fun j => ⟨h, r.meshes.getD j defaultMesh⟩) := by
    simp only [processHandle, hget, hm, Option.getD_some]
  refine ⟨hmain, ?_⟩
  rw [hmain, List.length_map, List.length_range']

/-- Witness for C4 at a concrete scene whose instance carries a private
override mesh list `[⟨7, 50⟩]` differing from the model's raw list
`[⟨5, 50⟩]`: the single emitted record references the override mesh. -/
theorem C4_one_record_per_lod_mesh_witness :
    processHandle exC4w 1 ⟨0, 0, 0⟩ 0 = [⟨0, ⟨some 7, 50⟩⟩] ∧
    exC4w.model_instances[0]? = some ({ sentinelInstance with
      entity := some 0, model := some 0
      meshes := [⟨some 7, 50⟩], custom_meshes := true }) ∧
    (exC4w.models 0).meshes = [⟨some 5, 50⟩] := by
  have h := C4_one_record_per_lod_mesh exC4w 1 ⟨0, 0, 0⟩ 0
    ({ sentinelInstance with
        entity := some 0, model := some 0
        meshes := [⟨some 7, 50⟩], custom_meshes := true }) 0 (by decide) (by decide)
  refine ⟨?_, by decide, by decide⟩
  rw [h.1]
  decide

/-- Claim C5 (confirmed): `assign_model` with the model that is already
assigned (non-null) leaves the culling index, the callback registrations,
the resource reference counts, the influence lists, and the slot's
model/mesh-list/override-flag/pose unchanged — the identity check in
`setModel` returns before any unload/load side effect beyond the
reference-count-neutral load/unload pair. -/
theorem C5_assign_same_model_is_noop (s : Scene) (cmp mid : ℕ) (r : ModelInstance)
    (hr : s.model_instances[cmp]? = some r) (hent : r.entity.isSome = true)
    (hm : r.model = some mid) :
    (setModelInstancePath s cmp (some mid)).culling_system = s.culling_system ∧
    (setModelInstancePath s cmp (some mid)).model_loaded_callbacks = s.model_loaded_callbacks ∧
    (setModelInstancePath s cmp (some mid)).refcount = s.refcount ∧
    (setModelInstancePath s cmp (some mid)).light_influenced_geometry =
      s.light_influenced_geometry ∧
    ((setModelInstancePath s cmp (some mid)).model_instances[cmp]?.map
      (fun q => (q.model, q.meshes, q.custom_meshes, q.pose))) =
      some (r.model, r.meshes, r.custom_meshes, r.pose) ∧
    (setModelInstancePath s cmp (some mid)).assert_failed = s.assert_failed := by
  have hlt : cmp < s.model_instances.length := by
    by_contra hge
    rw [List.getElem?_eq_none (Nat.le_of_not_lt hge)] at hr
    exact absurd hr (by simp)
  have h1 : setModel { s with refcount := incRef s.refcount mid } cmp (some mid) =
      { s with refcount := decRef (incRef s.refcount mid) mid } := by
    unfold setModel
    dsimp only
    rw [hr]
    dsimp only
    rw [hent, hm]
    simp
  unfold setModelInstancePath
  dsimp only
  rw [h1]
  dsimp only
  rw [hr]
  dsimp only
  refine ⟨rfl, rfl, decRef_incRef s.refcount mid, rfl, ?_, rfl⟩
  rw [List.getElem?_set]
  simp [hlt]

/-- Witness for C5 at a concrete scene (model 3 already assigned). -/
theorem C5_assign_same_model_is_noop_witness :
    (setModelInstancePath exC5w 0 (some 3)).culling_system = exC5w.culling_system ∧
    (setModelInstancePath exC5w 0 (some 3)).model_loaded_callbacks =
      exC5w.model_loaded_callbacks ∧
    (setModelInstancePath exC5w 0 (some 3)).refcount = exC5w.refcount ∧
    (setModelInstancePath exC5w 0 (some 3)).light_influenced_geometry =
      exC5w.light_influenced_geometry ∧
    ((setModelInstancePath exC5w 0 (some 3)).model_instances[0]?.map
      (fun q => (q.model, q.meshes, q.custom_meshes, q.pose))) =
      some (some 3, [], false, false) ∧
    (setModelInstancePath exC5w 0 (some 3)).assert_failed = exC5w.assert_failed :=
  C5_assign_same_model_is_noop exC5w 0 3
    ({ sentinelInstance with entity := some 0, model := some 3 })
    (by decide) (by decide) (by decide)

/-- Claim C8 (confirmed): when the broad-phase index holds zero entries,
`getModelInstanceInfos` returns record lists whose flattening is empty and
schedules zero parallel jobs (whether the early `m_model_instances.empty()`
exit fires or the cull query returns no bucket). -/
theorem C8_empty_index_returns_empty (s : Scene) (frustum : Frustum) (ref : Vec3)
    (refFov : ℤ) (mask : ℕ) (h : s.culling_system = []) :
    (getModelInstanceInfos s frustum ref refFov mask).1.flatten = [] ∧
    (getModelInstanceInfos s frustum ref refFov mask).2 = 0 := by
  unfold getModelInstanceInfos cull
  by_cases hi : s.model_instances.isEmpty
  · constructor
    · simp [hi, flatten_map_nil]
    · simp [hi]
  · constructor <;> simp [hi, h, cullToFrustum, fillTemporaryInfos]

/-- Witness for C8 at the empty scene. -/
theorem C8_empty_index_returns_empty_witness :
    (getModelInstanceInfos emptyScene ⟨fun _ _ => true, 1⟩ ⟨0, 0, 0⟩ 1 1).1.flatten = [] ∧
    (getModelInstanceInfos emptyScene ⟨fun _ _ => true, 1⟩ ⟨0, 0, 0⟩ 1 1).2 = 0 :=
  C8_empty_index_returns_empty emptyScene ⟨fun _ _ => true, 1⟩ ⟨0, 0, 0⟩ 1 1 rfl

/-- Counterexample to claim C9: influence lists can hold duplicate handles
of a live object with a ready model at a point where queries read them.
Reassigning a ready model to an object already present in a light's list
(`setModel`, which the claim's own "model loaded" operation serves) pushes
the handle again without a membership check: the list becomes `[0, 0]`. -/
theorem C9_counterexample :
    (setModel exC9 0 (some 1)).light_influenced_geometry = [[0, 0]] ∧
    ¬ ((setModel exC9 0 (some 1)).light_influenced_geometry.getD 0 []).Nodup ∧
    ((setModel exC9 0 (some 1)).model_instances[0]?.map (fun q => q.entity)) =
      some (some 0) ∧
    ((setModel exC9 0 (some 1)).models 1).is_ready = true := by
  exact ⟨by decide, by decide, by decide, by decide⟩

/-- Claim C9 amended (corrected): the influence lists stay duplicate-free
under "object moved" (given a duplicate-free culling index), and "object
destroyed" and "model unloaded" both preserve freedom from duplicates and
remove the handle from every (indexed) list — so a destroyed handle is
never left behind; but "model loaded" pushes the handle with no membership
check, so it preserves duplicate-freedom only when the handle is not
already present (reassigning a ready model violates the claim). -/
theorem C9_influence_lists_wellformed (s : Scene) (e cmp mid : ℕ) (s' : Scene)
    (hnd : ∀ li ∈ s.light_influenced_geometry, li.Nodup)
    (hcull : (s.culling_system.map (fun en => en.cmp)).Nodup)
    (hmove : onEntityMoved s e = some s') :
    (∀ li ∈ s'.light_influenced_geometry, li.Nodup) ∧
    (∀ li ∈ (destroyModelInstance s cmp).light_influenced_geometry,
      li.Nodup ∧ cmp ∉ li) ∧
    (∀ (j : ℕ) (li : List ℕ),
      (modelUnloadedCmp s cmp).light_influenced_geometry[j]? = some li →
      li.Nodup ∧ (s.model_instances[cmp]?.isSome = true →
        j < s.point_lights.length → cmp ∉ li)) ∧
    ((∀ li ∈ s.light_influenced_geometry, cmp ∉ li) →
      ∀ li ∈ (modelLoaded s mid cmp).light_influenced_geometry, li.Nodup) := by
  have hmemof : ∀ {j : ℕ} {a : List ℕ},
      s.light_influenced_geometry[j]? = some a → a ∈ s.light_influenced_geometry := by
    intro j a ha
    rw [List.mem_iff_getElem?]
    exact ⟨j, ha⟩
  refine ⟨?_, ?_, ?_, ?_⟩
  · -- object moved
    unfold onEntityMoved at hmove
    rw [Option.bind_eq_some] at hmove
    obtain ⟨sm, hp1, hp2⟩ := hmove
    have hA : (∀ li ∈ sm.light_influenced_geometry, li.Nodup) ∧
        (sm.culling_system.map (fun en => en.cmp)).Nodup ∧
        sm.point_lights = s.point_lights := by
      cases hre : s.model_instances[e]? with
      | none =>
        rw [hre] at hp1
        obtain rfl : s = sm := Option.some_inj.mp hp1
        exact ⟨hnd, hcull, rfl⟩
      | some r =>
        rw [hre] at hp1
        dsimp only at hp1
        by_cases hguard : (r.entity.isSome && r.model.isSome &&
            (s.models (r.model.getD 0)).is_ready) = true
        · rw [if_pos hguard] at hp1
          by_cases hlenc : s.point_lights.length ≤ s.light_influenced_geometry.length
          · rw [if_pos hlenc] at hp1
            rw [Option.map_eq_some'] at hp1
            obtain ⟨ls, hls, hsm⟩ := hp1
            subst hsm
            refine ⟨?_, ?_, rfl⟩
            · intro li hli
              have hli2 : li ∈ ls := hli
              rw [List.mem_iff_getElem?] at hli2
              obtain ⟨j, hj⟩ := hli2
              have hjlen : j < ls.length := by
                by_contra hge
                rw [List.getElem?_eq_none (Nat.le_of_not_lt hge)] at hj
                exact absurd hj (by simp)
              have hlslen := optionMapIdx_length hls
              have hjl : j < s.light_influenced_geometry.length := by omega
              obtain ⟨a, ha⟩ : ∃ a, s.light_influenced_geometry[j]? = some a :=
                ⟨_, List.getElem?_eq_getElem hjl⟩
              obtain ⟨b, hstep, hb⟩ := optionMapIdx_get? hls ha
              rw [hj] at hb
              have hbe : li = b := Option.some_inj.mp hb
              subst hbe
              exact nodup_step_result (by simpa using hstep) (hnd a (hmemof ha))
            · have hcmps : ∀ (sph : Sphere) (c : ℕ),
                  ((updateBoundingSphere s.culling_system sph c).map
                    (fun en => en.cmp)).Nodup := by
                intro sph c
                rw [updateBoundingSphere_cmps]
                exact hcull
              exact hcmps _ _
          · rw [if_neg hlenc] at hp1
            exact absurd hp1 (by simp)
        · rw [if_neg hguard] at hp1
          obtain rfl : s = sm := Option.some_inj.mp hp1
          exact ⟨hnd, hcull, rfl⟩
    obtain ⟨hA1, hA2, _⟩ := hA
    cases hfind : sm.point_lights.find? (fun light => light.m_entity == e) with
    | none =>
      rw [hfind] at hp2
      obtain rfl : sm = s' := Option.some_inj.mp hp2
      exact hA1
    | some light =>
      rw [hfind] at hp2
      exact detect_preserves_nodup sm s' light.m_component hp2 hA1 hA2
  · -- object destroyed
    rw [destroy_lists]
    intro li hli
    rw [List.mem_map] at hli
    obtain ⟨a, ha, rfl⟩ := hli
    have hand := hnd a ha
    constructor
    · exact removeFirst_nodup (fun hx => removeFirstOrdered_perm hx)
        (fun hx => removeFirstOrdered_not_mem hx) hand
    · exact removeFirst_self_not_mem (fun hx => removeFirstOrdered_perm hx)
        (fun hx => removeFirstOrdered_not_mem hx)
        (List.nodup_iff_count_le_one.mp hand cmp)
  · -- model unloaded
    intro j li hj
    unfold modelUnloadedCmp at hj
    cases hrc : s.model_instances[cmp]? with
    | none =>
      simp only [hrc] at hj
      refine ⟨hnd li (hmemof hj), ?_⟩
      intro hvalid
      exact absurd hvalid (by simp)
    | some r0 =>
      simp only [hrc] at hj
      rw [mapIdxFrom_get?] at hj
      simp only [Nat.zero_add] at hj
      cases ha : s.light_influenced_geometry[j]? with
      | none => rw [ha] at hj; exact absurd hj (by simp)
      | some a =>
        rw [ha] at hj
        simp only [Option.map_some', Option.some.injEq] at hj
        have hand := hnd a (hmemof ha)
        by_cases hjl : j < s.point_lights.length
        · rw [if_pos hjl] at hj
          subst hj
          refine ⟨removeFirst_nodup (fun hx => removeFirstSwap_perm hx)
            (fun hx => removeFirstSwap_not_mem hx) hand, ?_⟩
          intro _ _
          exact removeFirst_self_not_mem (fun hx => removeFirstSwap_perm hx)
            (fun hx => removeFirstSwap_not_mem hx)
            (List.nodup_iff_count_le_one.mp hand cmp)
        · rw [if_neg hjl] at hj
          subst hj
          exact ⟨hand, fun _ hl => absurd hl hjl⟩
  · -- model loaded (handle not already present)
    intro habs li hli
    unfold modelLoaded at hli
    cases hrc : s.model_instances[cmp]? with
    | none =>
      simp only [hrc] at hli
      exact hnd li hli
    | some r0 =>
      simp only [hrc] at hli
      rw [List.mem_iff_getElem?] at hli
      obtain ⟨j, hj⟩ := hli
      rw [mapIdxFrom_get?] at hj
      simp only [Nat.zero_add] at hj
      cases ha : s.light_influenced_geometry[j]? with
      | none => rw [ha] at hj; exact absurd hj (by simp)
      | some a =>
        rw [ha] at hj
        simp only [Option.map_some', Option.some.injEq] at hj
        have hand := hnd a (hmemof ha)
        have hnotin := habs a (hmemof ha)
        cases hlj : s.point_lights[j]? with
        | none =>
          rw [hlj] at hj
          subst hj
          exact hand
        | some light =>
          rw [hlj] at hj
          dsimp only at hj
          by_cases hcond : sphereIntersectB (s.m_universe.position light.m_entity)
              light.m_range (s.m_universe.position (r0.entity.getD 0))
              (s.models (r0.model.getD 0)).bounding_radius = true
          · rw [if_pos hcond] at hj
            subst hj
            simp [List.nodup_append, hand, hnotin]
          · rw [if_neg hcond] at hj
            subst hj
            exact hand

/-- Witness for the amended C9 at `exC9` (one object, one light, the object
in the light's list): a processed move notification, a destroy, an unload
and a load all keep the lists well-formed. -/
theorem C9_influence_lists_wellformed_witness :
    (∀ li ∈ exC9.light_influenced_geometry, li.Nodup) ∧
    (∀ li ∈ (destroyModelInstance exC9 0).light_influenced_geometry,
      li.Nodup ∧ 0 ∉ li) ∧
    (∀ (j : ℕ) (li : List ℕ),
      (modelUnloadedCmp exC9 0).light_influenced_geometry[j]? = some li →
      li.Nodup ∧ (exC9.model_instances[0]?.isSome = true →
        j < exC9.point_lights.length → 0 ∉ li)) ∧
    ((∀ li ∈ exC9.light_influenced_geometry, 0 ∉ li) →
      ∀ li ∈ (modelLoaded exC9 0 0).light_influenced_geometry, li.Nodup) :=
  C9_influence_lists_wellformed exC9 5 0 0 exC9 (by decide) (by decide) rfl

/-- Counterexample to claim C1: after a move notification the handle's
membership in a light's influence list is decided with the model's
UNSCALED bounding radius, not the object's bounding sphere.  In `exC1`
(object of model radius 1 at distance 2 from a range-1 light, entity scale
2) the scaled bounding sphere intersects the light sphere
(`spec_influences` is true) yet the list stays empty after
`onEntityMoved`. -/
theorem C1_counterexample :
    (onEntityMoved exC1 0).map (fun t => t.light_influenced_geometry) = some [[]] ∧
    spec_influences exC1 ⟨1, 0, 1⟩ 0 0 = true := by
  exact ⟨by decide, by decide⟩

/-- Claim C1 amended (corrected): after a processed move notification for a
live object with a ready model, for every point light the handle is a
member of the light's influence list iff the sphere
`{position(entity), model's unscaled object-space bounding radius}`
intersects `{light position, light range}` — the entity world scale is NOT
applied to the radius on this path (it is on the culling-sphere update in
the same function). -/
theorem C1_moved_membership (s : Scene) (e : ℕ) (r : ModelInstance)
    (hr : s.model_instances[e]? = some r)
    (hent : r.entity = some e)
    (hmodel : r.model.isSome = true)
    (hready : (s.models (r.model.getD 0)).is_ready = true)
    (hlen : s.point_lights.length ≤ s.light_influenced_geometry.length)
    (hmap : ∀ i : ℕ, i < s.point_lights.length → lookupZ s.point_lights_map (i : ℤ) = some i)
    (hcount : ∀ li ∈ s.light_influenced_geometry, List.count e li ≤ 1)
    (hnolight : ∀ light ∈ s.point_lights, light.m_entity ≠ e) :
    ∀ (i : ℕ) (light : PointLight), s.point_lights[i]? = some light →
      (onEntityMoved s e).map
        (fun t => decide (e ∈ t.light_influenced_geometry.getD i [])) =
      some (sphereIntersectB (s.m_universe.position light.m_entity) light.m_range
        (s.m_universe.position e) (s.models (r.model.getD 0)).bounding_radius) := by
  intro i light hlight
  have hentSome : r.entity.isSome = true := by rw [hent]; rfl
  obtain ⟨ls, hls, hrun⟩ :=
    onEntityMoved_run s e r hr hentSome hmodel hready hlen hmap hnolight
  rw [hrun]
  simp only [Option.map_some', Option.some.injEq]
  have hi : i < s.point_lights.length := by
    by_contra hge
    rw [List.getElem?_eq_none (Nat.le_of_not_lt hge)] at hlight
    exact absurd hlight (by simp)
  have hil : i < s.light_influenced_geometry.length := lt_of_lt_of_le hi hlen
  obtain ⟨li, hli⟩ : ∃ li, s.light_influenced_geometry[i]? = some li :=
    ⟨_, List.getElem?_eq_getElem hil⟩
  have hmem : li ∈ s.light_influenced_geometry := by
    have := List.getElem?_eq_getElem hil
    rw [hli] at this
    exact (Option.some_inj.mp this.symm) ▸ List.getElem_mem hil
  obtain ⟨b, hb, hlsb⟩ := optionMapIdx_get? hls hli
  have hb' : movedLightStep (movedMid s e r) e (s.m_universe.position (r.entity.getD 0))
      (s.models (r.model.getD 0)).bounding_radius i li = some b := by
    simpa using hb
  unfold movedLightStep at hb'
  rw [if_pos (show i < (movedMid s e r).point_lights.length from hi)] at hb'
  unfold getPointLightFrustum at hb'
  have hlook : lookupZ (movedMid s e r).point_lights_map ((i : ℕ) : ℤ) = some i := hmap i hi
  rw [hlook] at hb'
  have hlight2 : (movedMid s e r).point_lights[i]? = some light := hlight
  rw [Option.some_bind, hlight2] at hb'
  simp only [Option.map_some', Option.some.injEq, hent, Option.getD_some] at hb'
  have hmu : (movedMid s e r).m_universe = s.m_universe := rfl
  rw [hmu] at hb'
  show decide (e ∈ ls.getD i []) = sphereIntersectB (s.m_universe.position light.m_entity)
    light.m_range (s.m_universe.position e) (s.models (r.model.getD 0)).bounding_radius
  rw [List.getD_eq_getElem?_getD, hlsb]
  simp only [Option.getD_some]
  have hcnt : List.count e li ≤ 1 := hcount li hmem
  have hnotmem : e ∉ removeFirstSwap e li :=
    removeFirst_self_not_mem (fun hx => removeFirstSwap_perm hx)
      (fun hx => removeFirstSwap_not_mem hx) hcnt
  by_cases htest : sphereIntersectB (s.m_universe.position light.m_entity) light.m_range
      (s.m_universe.position e) (s.models (r.model.getD 0)).bounding_radius = true
  · rw [if_pos htest] at hb'
    subst hb'
    rw [htest]
    simp
  · have hfalse : sphereIntersectB (s.m_universe.position light.m_entity) light.m_range
        (s.m_universe.position e) (s.models (r.model.getD 0)).bounding_radius = false :=
      Bool.eq_false_iff.mpr htest
    rw [if_neg htest] at hb'
    subst hb'
    rw [hfalse]
    simpa using hnotmem

/-- Witness for the amended C1 at `exC1w` (unit scale, object inside the
light's range): the handle is re-added. -/
theorem C1_moved_membership_witness :
    (onEntityMoved exC1w 0).map
      (fun t => decide (0 ∈ t.light_influenced_geometry.getD 0 [])) =
    some (sphereIntersectB (exC1w.m_universe.position 1) 1
      (exC1w.m_universe.position 0) (exC1w.models (rC1.model.getD 0)).bounding_radius) := by
  have h := C1_moved_membership exC1w 0 rC1 (by decide) (by decide) (by decide)
    (by decide) (by decide) (by decide) (by decide) (by decide) 0 ⟨1, 0, 1⟩ (by decide)
  simpa using h

/-- Counterexample to claim C6: the radius of the entry `showModelInstance`
inserts is the model's object-space radius (3) without the entity world
scale (2), not `radius × scale = 6`; and after `hideModelInstance` the
object has a ready model but no entry, refuting "entry exists iff the
object has a ready model". -/
theorem C6_counterexample :
    ((showModelInstance exC6 0).culling_system.map (fun en => en.sphere.radius)) = [3] ∧
    (exC6.models 0).bounding_radius * exC6.m_universe.scale 0 = 6 ∧
    ((3 : ℤ) ≠ 6) ∧
    (exC6.models 0).is_ready = true ∧
    (hideModelInstance (showModelInstance exC6 0) 0).culling_system = [] := by
  exact ⟨by decide, by decide, by decide, by decide, by decide⟩

/-- Claim C6 amended (corrected): on the model-becoming-ready path the
culling entry is inserted with radius = model bounding radius × entity
world scale, and the entity-move path updates the sphere to
scale × bounding radius; but the `showModelInstance` path re-inserts the
entry with the unscaled model radius, and entries are inserted only while
the model is ready (`show` is a no-op otherwise) — the "entry exists iff
ready model" direction fails after `hide`. -/
theorem C6_radius_scaling :
    (∀ s mid cmp r, s.model_instances[cmp]? = some r → r.model = some mid →
      (modelLoaded s mid cmp).culling_system =
        addStatic s.culling_system cmp
          ⟨r.matrix_translation,
            (s.models mid).bounding_radius * s.m_universe.scale (r.entity.getD 0)⟩
          (getLayerMask s r)) ∧
    (∀ s e r, s.model_instances[e]? = some r → r.entity.isSome = true →
      r.model.isSome = true → (s.models (r.model.getD 0)).is_ready = true →
      s.point_lights.length ≤ s.light_influenced_geometry.length →
      (∀ i : ℕ, i < s.point_lights.length → lookupZ s.point_lights_map (i : ℤ) = some i) →
      (∀ light ∈ s.point_lights, light.m_entity ≠ e) →
      (onEntityMoved s e).map (fun t => t.culling_system) =
        some (updateBoundingSphere s.culling_system
          ⟨s.m_universe.position e,
            s.m_universe.scale e * (s.models (r.model.getD 0)).bounding_radius⟩ e)) ∧
    (∀ s cmp r mid, s.model_instances[cmp]? = some r → r.model = some mid →
      (s.models mid).is_ready = true → isAdded s.culling_system cmp = false →
      (showModelInstance s cmp).culling_system =
        addStatic s.culling_system cmp
          ⟨s.m_universe.position (r.entity.getD 0), (s.models mid).bounding_radius⟩
          (getLayerMask s r)) ∧
    (∀ s cmp r mid, s.model_instances[cmp]? = some r → r.model = some mid →
      (s.models mid).is_ready = false → showModelInstance s cmp = s) := by
  refine ⟨?_, ?_, ?_, ?_⟩
  · intro s mid cmp r hr hm
    unfold modelLoaded
    rw [hr]
    by_cases hp : r.pose
    all_goals by_cases hms : (!r.meshes.isEmpty && !r.custom_meshes) = true
    all_goals simp [hp, hms, hm, addStatic, getLayerMask]
  · intro s e r hr hent hmodel hready hlen hmap hnolight
    obtain ⟨ls, hls, hrun⟩ :=
      onEntityMoved_run s e r hr hent hmodel hready hlen hmap hnolight
    rw [hrun]
    simp [movedMid]
  · intro s cmp r mid hr hm hready hadd
    unfold showModelInstance
    rw [hr]
    dsimp only
    rw [hm]
    simp [hready, hadd]
  · intro s cmp r mid hr hm hnready
    unfold showModelInstance
    rw [hr]
    dsimp only
    rw [hm]
    simp [hnready]

/-- Witness for the amended C6: the four paths evaluated on concrete
scenes (`exC6`: ready model of radius 3 on a scale-2 entity; `exC1w`: a
live moved object; `exC6w`: the not-ready variant). -/
theorem C6_radius_scaling_witness :
    (modelLoaded exC6 0 0).culling_system =
      addStatic exC6.culling_system 0
        ⟨rC6.matrix_translation,
          (exC6.models 0).bounding_radius * exC6.m_universe.scale (rC6.entity.getD 0)⟩
        (getLayerMask exC6 rC6) ∧
    (onEntityMoved exC1w 0).map (fun t => t.culling_system) =
      some (updateBoundingSphere exC1w.culling_system
        ⟨exC1w.m_universe.position 0,
          exC1w.m_universe.scale 0 * (exC1w.models (rC1.model.getD 0)).bounding_radius⟩
        0) ∧
    (showModelInstance exC6 0).culling_system =
      addStatic exC6.culling_system 0
        ⟨exC6.m_universe.position (rC6.entity.getD 0), (exC6.models 0).bounding_radius⟩
        (getLayerMask exC6 rC6) ∧
    showModelInstance exC6w 0 = exC6w := by
  refine ⟨?_, ?_, ?_, ?_⟩
  · exact C6_radius_scaling.1 exC6 0 0 rC6 (by decide) (by decide)
  · exact C6_radius_scaling.2.1 exC1w 0 rC1
      (by decide) (by decide) (by decide) (by decide) (by decide) (by decide) (by decide)
  · exact C6_radius_scaling.2.2.1 exC6 0 rC6 0
      (by decide) (by decide) (by decide) (by decide)
  · exact C6_radius_scaling.2.2.2 exC6w 0 rC6 0 (by decide) (by decide) (by decide)

/-- Counterexample to claim C7: the recompute query does not use an
all-layers mask.  `detectLightInfluencedGeometry` culls with `0xffffFFFF`,
so an in-range object whose u64 layer mask only has bit 32 set is left out
of the rebuilt influence list, while the same query under a true all-layers
mask (`2^64 − 1`) returns it. -/
theorem C7_counterexample :
    (detectLightInfluencedGeometry exC7 0).map (fun t => t.light_influenced_geometry) =
      some [[]] ∧
    (getPointLightFrustum exC7 0).map
      (fun f => (cullToFrustum exC7.culling_system f (2 ^ 64 - 1)).flatten) = some [5] := by
  exact ⟨by decide, by decide⟩

/-- Claim C7 amended (corrected): recomputing a light's influence list runs
a culling query over the light's range-derived volume with the mask
`0xFFFFFFFF` — the lower 32 layers, not all 64 — and replaces that light's
list wholesale with the flattened concatenation of all result buckets,
leaving every other light's list unchanged. -/
theorem C7_recompute_wholesale (s : Scene) (cmp : ℤ) (idx : ℕ)
    (hl : lookupZ s.point_lights_map cmp = some idx)
    (hf : (getPointLightFrustum s cmp).isSome = true)
    (hidx : idx < s.light_influenced_geometry.length) :
    (detectLightInfluencedGeometry s cmp).map (fun t => t.light_influenced_geometry) =
      (getPointLightFrustum s cmp).map (fun f =>
        s.light_influenced_geometry.set idx
          (cullToFrustum s.culling_system f 0xffffFFFF).flatten) ∧
    (∀ j, j ≠ idx →
      (detectLightInfluencedGeometry s cmp).map
        (fun t => t.light_influenced_geometry[j]?) =
        some s.light_influenced_geometry[j]?) := by
  obtain ⟨f, hfs⟩ := Option.isSome_iff_exists.mp hf
  unfold detectLightInfluencedGeometry
  rw [hfs, hl]
  constructor
  · simp [hidx]
  · intro j hj
    have hne : ¬(idx = j) := fun hcon => hj hcon.symm
    simp [hidx, List.getElem?_set, hne]

/-- Witness for the amended C7 at the concrete bit-32 scene. -/
theorem C7_recompute_wholesale_witness :
    ((detectLightInfluencedGeometry exC7 0).map (fun t => t.light_influenced_geometry) =
      (getPointLightFrustum exC7 0).map (fun f =>
        exC7.light_influenced_geometry.set 0
          (cullToFrustum exC7.culling_system f 0xffffFFFF).flatten)) ∧
    (∀ j, j ≠ 0 →
      (detectLightInfluencedGeometry exC7 0).map
        (fun t => t.light_influenced_geometry[j]?) =
        some exC7.light_influenced_geometry[j]?) :=
  C7_recompute_wholesale exC7 0 0 (by decide) (by decide) (by decide)

/-- Claim C10 (confirmed): `createModelInstance` returns the handle equal to
the entity's index after growing the dense table with invalid-entity
sentinel slots up to that index; the slot at the entity index is live with
that entity, `getModelInstanceComponent` finds it by reusing the entity
index, and a second create for the same entity yields the same handle —
hence at most one model instance per entity. -/
theorem C10_create_handle_equals_entity_index (s : Scene) (e : ℕ) :
    (createModelInstance s e).2 = e ∧
    (createModelInstance s e).1.model_instances.length =
      max s.model_instances.length (e + 1) ∧
    (∀ i, s.model_instances.length ≤ i → i < e →
      ((createModelInstance s e).1.model_instances[i]?.map (fun q => q.entity)) =
        some none) ∧
    ((createModelInstance s e).1.model_instances[e]?.map (fun q => q.entity)) =
      some (some e) ∧
    getModelInstanceComponent (createModelInstance s e).1 e = some e ∧
    (createModelInstance (createModelInstance s e).1 e).2 = e := by
  unfold createModelInstance
  dsimp only
  have hlen : (s.model_instances ++
      List.replicate (e + 1 - s.model_instances.length) sentinelInstance).length =
      max s.model_instances.length (e + 1) := by
    simp only [List.length_append, List.length_replicate]
    omega
  have helt : e < (s.model_instances ++
      List.replicate (e + 1 - s.model_instances.length) sentinelInstance).length := by
    rw [hlen]; omega
  refine ⟨rfl, by simpa using hlen, ?_, ?_, ?_, rfl⟩
  · intro i hle hlt
    rw [List.getElem?_set]
    have hne : ¬(e = i) := by omega
    rw [if_neg hne]
    rw [List.getElem?_append_right hle]
    rw [List.getElem?_replicate]
    have : i - s.model_instances.length < e + 1 - s.model_instances.length := by omega
    rw [if_pos this]
    rfl
  · rw [List.getElem?_set]
    have hlt : e < s.model_instances.length + (e + 1 - s.model_instances.length) := by omega
    simp [hlt]
  · unfold getModelInstanceComponent
    rw [List.getElem?_set]
    have hlt : e < s.model_instances.length + (e + 1 - s.model_instances.length) := by omega
    simp [hlt]

/-- Effects of `setModel(cmp, nullptr)` on a valid slot: the slot keeps its
entity but loses model and pose, the influence lists and event logs are
untouched, and the `ASSERT(isValid(entity))` is recorded when the slot is
already dead. -/
theorem setModel_none_effects (s : Scene) (cmp : ℕ) (r : ModelInstance)
    (hr : s.model_instances[cmp]? = some r) :
    ∃ q, (setModel s cmp none).model_instances[cmp]? = some q ∧
      q.entity = r.entity ∧ q.model = none ∧ q.pose = false ∧
      (setModel s cmp none).assert_failed = (s.assert_failed || !r.entity.isSome) ∧
      (setModel s cmp none).light_influenced_geometry = s.light_influenced_geometry ∧
      (setModel s cmp none).destroyed_events = s.destroyed_events ∧
      (setModel s cmp none).destroyed_components = s.destroyed_components := by
  have hlt : cmp < s.model_instances.length := by
    by_contra hge
    rw [List.getElem?_eq_none (Nat.le_of_not_lt hge)] at hr
    exact absurd hr (by simp)
  have hgetelem : s.model_instances[cmp] = r := by
    have := List.getElem?_eq_getElem hlt
    rw [hr] at this
    exact (Option.some_inj.mp this.symm)
  unfold setModel
  rw [hr]
  by_cases he : r.entity.isSome
  all_goals cases hm : r.model
  all_goals by_cases hcm : r.custom_meshes
  all_goals simp [he, hm, hcm, hgetelem, List.getElem?_set, hlt, List.length_set]

/-- Effects of one `destroyModelInstance` on a valid slot: the slot is left
dead (entity invalid, model and pose cleared), the destroyed-callback log
grows by the handle, and the assertion state records whether the slot was
already dead on entry. -/
theorem destroy_effects (s : Scene) (cmp : ℕ) (r : ModelInstance)
    (hr : s.model_instances[cmp]? = some r) :
    ∃ q, (destroyModelInstance s cmp).model_instances[cmp]? = some q ∧
      q.entity = none ∧ q.model = none ∧ q.pose = false ∧
      (destroyModelInstance s cmp).assert_failed = (s.assert_failed || !r.entity.isSome) ∧
      (destroyModelInstance s cmp).destroyed_events = s.destroyed_events ++ [cmp] := by
  obtain ⟨q, hq, hqe, hqm, hqp, hqa, hql, hqev, hqdc⟩ :=
    setModel_none_effects
      ({ s with destroyed_events := s.destroyed_events ++ [cmp],
                light_influenced_geometry :=
                  s.light_influenced_geometry.map (removeFirstOrdered cmp) })
      cmp r hr
  have hlt : cmp < (setModel
      ({ s with destroyed_events := s.destroyed_events ++ [cmp],
                light_influenced_geometry :=
                  s.light_influenced_geometry.map (removeFirstOrdered cmp) })
      cmp none).model_instances.length := by
    by_contra hge
    rw [List.getElem?_eq_none (Nat.le_of_not_lt hge)] at hq
    exact absurd hq (by simp)
  unfold destroyModelInstance
  simp only [hq]
  refine ⟨{ q with pose := false, entity := none }, ?_, rfl, hqm, rfl, ?_, ?_⟩
  · simp [List.getElem?_set, hlt]
  · simpa using hqa
  · simpa using hqev

/-- Counterexample to claim C2: destroying the same live handle twice is not
a silent no-op — the second call trips the `ASSERT(isValid(entity))` inside
`setModel` (the first call does not), and it fires the
`m_model_instance_destroyed` callback again, an observable difference. -/
theorem C2_counterexample :
    (destroyModelInstance (destroyModelInstance exC2 0) 0).assert_failed = true ∧
    (destroyModelInstance exC2 0).assert_failed = false ∧
    (destroyModelInstance (destroyModelInstance exC2 0) 0).destroyed_events ≠
      (destroyModelInstance exC2 0).destroyed_events := by
  refine ⟨by decide, by decide, by decide⟩

/-- Claim C2 amended (corrected): destroying an already-destroyed handle is
a programmer error, not a silent no-op: the first destroy leaves the slot
dead, and the second destroy fails the `isValid(entity)` assertion in
`setModel` and appends a second destroyed-callback invocation. -/
theorem C2_double_destroy_asserts (s : Scene) (cmp : ℕ) (r : ModelInstance)
    (hr : s.model_instances[cmp]? = some r) (hent : r.entity.isSome = true)
    (hassert : s.assert_failed = false) :
    ((destroyModelInstance s cmp).model_instances[cmp]?.map (fun q => q.entity)) =
      some none ∧
    (destroyModelInstance s cmp).assert_failed = false ∧
    (destroyModelInstance (destroyModelInstance s cmp) cmp).assert_failed = true ∧
    (destroyModelInstance (destroyModelInstance s cmp) cmp).destroyed_events =
      s.destroyed_events ++ [cmp] ++ [cmp] := by
  obtain ⟨q, hq, hqe, hqm, hqp, hqa, hqev⟩ := destroy_effects s cmp r hr
  have ha1 : (destroyModelInstance s cmp).assert_failed = false := by
    rw [hqa, hent, hassert]
    rfl
  obtain ⟨q2, hq2, hq2e, hq2m, hq2p, hq2a, hq2ev⟩ :=
    destroy_effects (destroyModelInstance s cmp) cmp q hq
  refine ⟨by simp [hq, hqe], ha1, ?_, ?_⟩
  · rw [hq2a, ha1, hqe]
    rfl
  · rw [hq2ev, hqev]

/-- Witness for the amended C2 at a concrete one-slot scene. -/
theorem C2_double_destroy_asserts_witness :
    ((destroyModelInstance exC2 0).model_instances[0]?.map (fun q => q.entity)) =
      some none ∧
    (destroyModelInstance exC2 0).assert_failed = false ∧
    (destroyModelInstance (destroyModelInstance exC2 0) 0).assert_failed = true ∧
    (destroyModelInstance (destroyModelInstance exC2 0) 0).destroyed_events =
      exC2.destroyed_events ++ [0] ++ [0] :=
  C2_double_destroy_asserts exC2 0 ({ sentinelInstance with entity := some 0 })
    (by decide) (by decide) (by decide)

/-- Witness for C10 at a concrete entity index, exercising the sentinel-fill
hypotheses. -/
theorem C10_create_handle_equals_entity_index_witness :
    (createModelInstance emptyScene 2).2 = 2 ∧
    (createModelInstance emptyScene 2).1.model_instances.length = max 0 3 ∧
    ((createModelInstance emptyScene 2).1.model_instances[0]?.map (fun q => q.entity)) =
      some none ∧
    ((createModelInstance emptyScene 2).1.model_instances[2]?.map (fun q => q.entity)) =
      some (some 2) ∧
    getModelInstanceComponent (createModelInstance emptyScene 2).1 2 = some 2 := by
  have h := C10_create_handle_equals_entity_index emptyScene 2
  exact ⟨h.1, by simpa using h.2.1, h.2.2.1 0 (by decide) (by decide), h.2.2.2.1,
    h.2.2.2.2.1⟩

end RenderScene
